import Mathlib

/-!
Verification of the natural language specification of the
cli_file_analyzer repository against a shallow embedding of
src/file_analyzer_pro.py.  File content is modelled as a list of
characters, the per file metric computation and the three output
renderers are translated function by function from the source, and the
file system effects of analyze_file and main are modelled by an explicit
file system record.
-/

set_option maxRecDepth 16000

namespace FileAnalyzerPro

/-- Whitespace test of the Python methods str.split and str.strip,
restricted to the six ASCII whitespace characters recognised by Python. -/
def isWS (c : Char) : Bool :=
  c == ' ' || c == '\t' || c == '\n' || c == '\r' || c == '\x0b' || c == '\x0c'

/-- Accumulator splitter behind the Python expression content.split()
used on lines 67 and 76 of src/file_analyzer_pro.py: runs of whitespace
separate tokens, leading and trailing whitespace is dropped, and empty
tokens never appear.  The accumulator holds the current token reversed. -/
def splitAux : List Char → List Char → List (List Char)
  | [], acc => if acc.isEmpty then [] else [acc.reverse]
  | c :: rest, acc =>
      if isWS c then
        if acc.isEmpty then splitAux rest [] else acc.reverse :: splitAux rest []
      else splitAux rest (c :: acc)

/-- Python content.split() with no separator argument. -/
def pySplit (content : List Char) : List (List Char) := splitAux content []

/-- The words metric of analyze_file, source line 67: len(content.split()). -/
def wordsMetric (content : List Char) : Nat := (pySplit content).length

/-- Counter of maximal whitespace delimited tokens, written from the
words sentence of the specification: a token starts at every character
that is not whitespace and is preceded by whitespace or by the start of
the content.  The flag records whether the previous position was
whitespace or the start. -/
def countTokAux : Bool → List Char → Nat
  | _, [] => 0
  | prevWS, c :: rest =>
      (if prevWS && !(isWS c) then 1 else 0) + countTokAux (isWS c) rest

/-- Number of maximal whitespace delimited tokens of the content. -/
def countTokens (content : List Char) : Nat := countTokAux true content

/-- Accumulator splitter behind the Python expression content.splitlines()
used on line 75 of src/file_analyzer_pro.py, covering the line boundaries
LF, CR and CRLF.  A trailing boundary does not open a further line. -/
def splitlinesAux : List Char → List Char → List (List Char)
  | [], acc => if acc.isEmpty then [] else [acc.reverse]
  | '\r' :: '\n' :: rest, acc => acc.reverse :: splitlinesAux rest []
  | '\r' :: rest, acc => acc.reverse :: splitlinesAux rest []
  | '\n' :: rest, acc => acc.reverse :: splitlinesAux rest []
  | c :: rest, acc => splitlinesAux rest (c :: acc)

/-- Python content.splitlines(). -/
def pySplitlines (content : List Char) : List (List Char) := splitlinesAux content []

/-- Divisor guard max(n, 1) of the two averages, source lines 81 and 83. -/
def avgDenom (n : Nat) : Nat := max n 1

/-- The nested stats mapping of analyze_file, source lines 79 to 86.
The three double precision values of the program are modelled by exact
rationals. -/
structure Stats where
  avg_line_length : ℚ
  avg_words_length : ℚ
  empty_lines : Nat
deriving DecidableEq

/-- Statistical analysis of analyze_file, source lines 74 to 86.  The
empty line count keeps the lines whose strip() result is empty, that is
the lines made of whitespace only. -/
def computeStats (content : List Char) : Stats :=
  { avg_line_length :=
      (((pySplitlines content).map List.length).sum : ℚ) /
        (avgDenom (pySplitlines content).length : ℚ)
  , avg_words_length :=
      (((pySplit content).map List.length).sum : ℚ) /
        (avgDenom (pySplit content).length : ℚ)
  , empty_lines := (pySplitlines content).countP (fun line => line.all isWS) }

/-- The lines metric of analyze_file, source line 63:
content.count of the newline character, plus one. -/
def linesMetric (content : List Char) : Nat := content.count '\n' + 1

/-- The result dictionary built by analyze_file for one file, source
lines 59 to 89.  The four keys appear in the fixed insertion order
lines, words, chars, stats, each present exactly when its branch fires. -/
structure FileMetrics where
  lines : Option Nat
  words : Option Nat
  chars : Option Nat
  stats : Option Stats
deriving DecidableEq

/-- Metric computation of analyze_file on already read content, source
lines 59 to 89: each branch tests membership of its mode name in the
requested mode list, the keyword all enabling lines, words and chars. -/
def analyzeContent (modes : List String) (content : List Char) : FileMetrics :=
  { lines := if "lines" ∈ modes ∨ "all" ∈ modes then some (linesMetric content) else none
  , words := if "words" ∈ modes ∨ "all" ∈ modes then some (wordsMetric content) else none
  , chars := if "chars" ∈ modes ∨ "all" ∈ modes then some content.length else none
  , stats := if "stats" ∈ modes then some (computeStats content) else none }

/-- Modelled from the spec: the number of lines of a content, the word
used by the specification when it says that the lines metric counts a
final line lacking a trailing newline.  A line is a maximal newline free
segment, and a trailing newline does not open a further line. -/
def specLinesAux : List Char → List Char → List (List Char)
  | [], acc => if acc.isEmpty then [] else [acc.reverse]
  | c :: rest, acc =>
      if c == '\n' then acc.reverse :: specLinesAux rest []
      else specLinesAux rest (c :: acc)

/-- Modelled from the spec: the list of newline delimited lines. -/
def specLines (content : List Char) : List (List Char) := specLinesAux content []

/-- Modelled from the spec: the number of newline delimited lines. -/
def specLineCount (content : List Char) : Nat := (specLines content).length

/-- Whether the content ends with a newline character. -/
def endsNL : List Char → Bool
  | [] => false
  | [c] => c == '\n'
  | _ :: c :: rest => endsNL (c :: rest)

/-- Python str.capitalize(): first character upper cased, remainder
lower cased. -/
def pyCapitalize (s : String) : String :=
  match s.toList with
  | [] => ""
  | c :: rest => String.mk (c.toUpper :: rest.map Char.toLower)

/-- Integer value of one hundred times a rational, rounded to the
nearest integer, halves away from zero for the nonnegative values used
here.  This models the scaling step of the Python format specifier .2f
applied to the stats values; the tie behaviour of binary doubles is
abstracted. -/
def fmt2Int (q : ℚ) : ℤ := Int.fdiv (q.num * 200 + (q.den : ℤ)) (2 * (q.den : ℤ))

/-- Two digit decimal fraction part, always of length two. -/
def fmt2Frac (k : Nat) : String :=
  if k < 10 then "0" ++ toString k else toString k

/-- Rendering of a stats value by the Python format specifier .2f,
source line 125: a decimal numeral with exactly two digits after the
decimal point. -/
def fmt2 (q : ℚ) : String :=
  ((if fmt2Int q < 0 then "-" else "") ++ toString ((fmt2Int q).natAbs / 100)) ++
    "." ++ fmt2Frac ((fmt2Int q).natAbs % 100)

/-- The merged results mapping of main, file path to metrics, in
insertion order. -/
abbrev ResultSet := List (String × FileMetrics)

/-- The per file body lines of the text branch of formatted_output,
source lines 119 to 127: dictionary iteration visits the keys in the
insertion order lines, words, chars, stats; a scalar value gives one
line with two leading spaces, the nested stats value gives a sub header
line with one leading space followed by three lines with four leading
spaces.  The integer valued empty_lines field also passes through the
.2f format, as in the source. -/
def formatMetricsText (m : FileMetrics) : List String :=
  (match m.lines with
   | some n => ["  " ++ pyCapitalize "lines" ++ ": " ++ toString n]
   | none => []) ++
  (match m.words with
   | some n => ["  " ++ pyCapitalize "words" ++ ": " ++ toString n]
   | none => []) ++
  (match m.chars with
   | some n => ["  " ++ pyCapitalize "chars" ++ ": " ++ toString n]
   | none => []) ++
  (match m.stats with
   | some s =>
       (" " ++ pyCapitalize "stats" ++ ":") ::
       ["    " ++ "avg_line_length" ++ ": " ++ fmt2 s.avg_line_length,
        "    " ++ "avg_words_length" ++ ": " ++ fmt2 s.avg_words_length,
        "    " ++ "empty_lines" ++ ": " ++ fmt2 (s.empty_lines : ℚ)]
   | none => [])

/-- The text branch of formatted_output, source lines 116 to 128. -/
def textFormat (rs : ResultSet) : String :=
  String.intercalate "\n"
    (rs.flatMap fun p => ("Results for \x27" ++ p.1 ++ "\x27:") :: formatMetricsText p.2)

/-- One csv cell, source line 113: str(data.get(item, ...)) with the
empty string default. -/
def csvCell : Option Nat → String
  | some n => toString n
  | none => ""

/-- One csv data row, source lines 111 to 114: the raw field strings
joined by commas, without any quoting or escaping. -/
def csvRow (fn : String) (m : FileMetrics) : String :=
  String.intercalate "," [fn, csvCell m.lines, csvCell m.words, csvCell m.chars]

/-- The csv branch of formatted_output, source lines 106 to 115. -/
def csvFormat (rs : ResultSet) : String :=
  String.intercalate "\n"
    ("filename,lines,words,chars" :: rs.map fun p => csvRow p.1 p.2)

/-- Decimal text of a rational for the json renderer.  The program
serialises Python doubles; their exact shortest round trip text is a
floating point artefact that this rational model abstracts, see the
status of claim C7.  No theorem of this file depends on this rendering. -/
def jsonNumStr (q : ℚ) : String :=
  (if fmt2Int q < 0 then "-" else "") ++ toString ((fmt2Int q).natAbs / 100) ++
    "." ++ fmt2Frac ((fmt2Int q).natAbs % 100)

/-- The key value items of one file object in the json document. -/
def jsonMetricItems (m : FileMetrics) : List String :=
  (match m.lines with
   | some n => ["\"lines\": " ++ toString n]
   | none => []) ++
  (match m.words with
   | some n => ["\"words\": " ++ toString n]
   | none => []) ++
  (match m.chars with
   | some n => ["\"chars\": " ++ toString n]
   | none => []) ++
  (match m.stats with
   | some s =>
       ["\"stats\": \x7b\n      \"avg_line_length\": " ++ jsonNumStr s.avg_line_length ++
        ",\n      \"avg_words_length\": " ++ jsonNumStr s.avg_words_length ++
        ",\n      \"empty_lines\": " ++ toString s.empty_lines ++ "\n    \x7d"]
   | none => [])

/-- The json branch of formatted_output, source line 105: json.dumps of
the results mapping with two space indentation. -/
def jsonDumps (rs : ResultSet) : String :=
  if rs.isEmpty then "\x7b\x7d"
  else
    "\x7b\n" ++
      String.intercalate ",\n"
        (rs.map fun p =>
          "  \"" ++ p.1 ++ "\": " ++
            (if (jsonMetricItems p.2).isEmpty then "\x7b\x7d"
             else "\x7b\n" ++
               String.intercalate ",\n" ((jsonMetricItems p.2).map ("    " ++ ·)) ++
               "\n  \x7d")) ++
      "\n\x7d"

/-- Dispatch of formatted_output on the format type, source lines 104
to 128: json, csv, and text as the default. -/
def formatted_output (rs : ResultSet) (format_type : String) : String :=
  if format_type = "json" then jsonDumps rs
  else if format_type = "csv" then csvFormat rs
  else textFormat rs

/-- Abstract file system seen by analyze_file: whether a path names an
existing regular file, and the outcome of opening, reading and decoding
it, an error message or the decoded content. -/
structure FS where
  isFile : String → Bool
  readBytes : String → Except String (List Char)

/-- Whether reading the file succeeds. -/
def readOk (fs : FS) (f : String) : Bool :=
  match fs.readBytes f with
  | .ok _ => true
  | .error _ => false

/-- The function analyze_file, source lines 22 to 89: the existence
check and the read are modelled through the abstract file system, the
first component is the optional result entry and the second component
collects the printed messages. -/
def analyze_file (fs : FS) (filename : String) (modes : List String) (verbose : Bool) :
    Option (String × FileMetrics) × List String :=
  if fs.isFile filename = false then
    (none, ["Error: File \x27" ++ filename ++ "\x27 does not exist."])
  else
    match fs.readBytes filename with
    | .error e => (none, ["Error reading file \x27" ++ filename ++ "\x27: " ++ e])
    | .ok content =>
        (some (filename, analyzeContent modes content),
         if verbose then
           ["Analyzing \x27" ++ filename ++ "\x27 in " ++
              String.intercalate ", " modes ++ " modes(s)..."]
         else [])

/-- The collection loop of main, source lines 199 to 203: every file is
analyzed in order, a missing result contributes no entry, and the run
continues with the remaining files. -/
def collectResults (fs : FS) : List String → List String → Bool → ResultSet × List String
  | [], _, _ => ([], [])
  | f :: rest, modes, verbose =>
      ((match (analyze_file fs f modes verbose).1 with
        | some p => p :: (collectResults fs rest modes verbose).1
        | none => (collectResults fs rest modes verbose).1),
       (analyze_file fs f modes verbose).2 ++ (collectResults fs rest modes verbose).2)

/-- The tail of main after file set resolution, source lines 192 to
206: an empty resolved list prints the no matching files error and ends
the run with no output, otherwise the files are analyzed and the
formatted output is produced.  The first component is the produced
output, if any, and the second component the printed messages. -/
def mainRun (fs : FS) (all_files : List String) (modes : List String)
    (verbose : Bool) (fmt : String) : Option String × List String :=
  if all_files.isEmpty then (none, ["Error: No matching files found."])
  else
    (some (formatted_output (collectResults fs all_files modes verbose).1 fmt),
     (collectResults fs all_files modes verbose).2)

/-- Modelled from the spec, claim C4 as amended: scalar metric line, two
spaces, the capitalized key, a colon, the natural string form of the
value. -/
def specScalarLine (capKey : String) (n : Nat) : String :=
  "  " ++ capKey ++ ": " ++ toString n

/-- Modelled from the spec, claim C4 as amended: stats block, a sub
header line of one space, the capitalized key and a colon, then one line
per inner key indented by four spaces with the value rendered to two
decimal places. -/
def specStatsBlock (s : Stats) : List String :=
  (" " ++ "Stats" ++ ":") ::
  ["    " ++ "avg_line_length" ++ ": " ++ fmt2 s.avg_line_length,
   "    " ++ "avg_words_length" ++ ": " ++ fmt2 s.avg_words_length,
   "    " ++ "empty_lines" ++ ": " ++ fmt2 (s.empty_lines : ℚ)]

/-- Modelled from the spec, claim C4 as amended: the text block of one
file, the header line followed by the blocks of the present metrics in
order. -/
def specFileBlock (fn : String) (m : FileMetrics) : List String :=
  ("Results for \x27" ++ fn ++ "\x27:") ::
  ((match m.lines with | some n => [specScalarLine "Lines" n] | none => []) ++
   (match m.words with | some n => [specScalarLine "Words" n] | none => []) ++
   (match m.chars with | some n => [specScalarLine "Chars" n] | none => []) ++
   (match m.stats with | some s => specStatsBlock s | none => []))

/-- Modelled from the spec, claim C4 as amended: the whole text output. -/
def specTextRender (rs : ResultSet) : String :=
  String.intercalate "\n" (rs.flatMap fun p => specFileBlock p.1 p.2)

/-- Stats block exactly as written in claim C4, with a two space sub
header line; used only to exhibit the counterexample to the claim as
stated. -/
def claimStatsBlock (s : Stats) : List String :=
  ("  " ++ "Stats" ++ ":") ::
  ["    " ++ "avg_line_length" ++ ": " ++ fmt2 s.avg_line_length,
   "    " ++ "avg_words_length" ++ ": " ++ fmt2 s.avg_words_length,
   "    " ++ "empty_lines" ++ ": " ++ fmt2 (s.empty_lines : ℚ)]

/-- File block exactly as written in claim C4. -/
def claimFileBlock (fn : String) (m : FileMetrics) : List String :=
  ("Results for \x27" ++ fn ++ "\x27:") ::
  ((match m.lines with | some n => [specScalarLine "Lines" n] | none => []) ++
   (match m.words with | some n => [specScalarLine "Words" n] | none => []) ++
   (match m.chars with | some n => [specScalarLine "Chars" n] | none => []) ++
   (match m.stats with | some s => claimStatsBlock s | none => []))

/-- Text output exactly as written in claim C4. -/
def claimTextRender (rs : ResultSet) : String :=
  String.intercalate "\n" (rs.flatMap fun p => claimFileBlock p.1 p.2)

/-- Modelled from the spec, claim C5: one csv data row, the path then
the three metric columns, each holding the value when present and an
empty field otherwise; the stats metric does not appear. -/
def specCsvRow (fn : String) (m : FileMetrics) : String :=
  fn ++ "," ++
    (match m.lines with | some n => toString n | none => "") ++ "," ++
    (match m.words with | some n => toString n | none => "") ++ "," ++
    (match m.chars with | some n => toString n | none => "")

/-- Small concrete file system used by the witnesses: one missing path,
one unreadable path, everything else readable. -/
def fsDemo : FS :=
  { isFile := fun f => f != "missing.txt"
  , readBytes := fun f =>
      if f = "bad.txt" then Except.error "boom" else Except.ok ('h' :: 'i' :: []) }

/-- Metrics holding only a stats entry. -/
def statsOnlyMetrics : FileMetrics := ⟨none, none, none, some ⟨0, 0, 0⟩⟩

/-- Metrics of a small file, used by the csv quoting counterexamples. -/
def smallMetrics : FileMetrics := ⟨some 1, some 2, some 3, none⟩

/-- Unfolding equation of specLinesAux on a cons. -/
theorem specLinesAux_cons (c : Char) (rest acc : List Char) :
    specLinesAux (c :: rest) acc =
      if c == '\n' then acc.reverse :: specLinesAux rest []
      else specLinesAux rest (c :: acc) := rfl

/-- Length of the line list produced by specLinesAux: the newline count
of the remaining input, plus one for a pending final line, that is when
the remaining input does not end in a newline, or when it is exhausted
while the accumulator is not empty. -/
theorem specLinesAux_length (s : List Char) : ∀ acc : List Char,
    (specLinesAux s acc).length =
      s.count '\n' +
        (if s.isEmpty then (if acc.isEmpty then 0 else 1)
         else (if endsNL s then 0 else 1)) := by
  induction s with
  | nil => intro acc; cases acc <;> simp [specLinesAux]
  | cons c rest ih =>
    intro acc
    rw [specLinesAux_cons]
    by_cases hc : c = '\n'
    · subst hc
      rw [if_pos (by simp)]
      rw [List.length_cons, ih []]
      cases rest with
      | nil => simp [endsNL, List.count_cons]
      | cons d r2 =>
        have h2 : endsNL ('\n' :: d :: r2) = endsNL (d :: r2) := rfl
        simp [List.count_cons, h2]
        omega
    · rw [if_neg (by simp [hc])]
      rw [ih (c :: acc)]
      cases rest with
      | nil => simp [endsNL, hc, List.count_cons]
      | cons d r2 =>
        have h2 : endsNL (c :: d :: r2) = endsNL (d :: r2) := rfl
        simp [List.count_cons, hc, h2]

/-- Unfolding equation of splitAux on a cons. -/
theorem splitAux_cons (c : Char) (rest acc : List Char) :
    splitAux (c :: rest) acc =
      if isWS c then
        (if acc.isEmpty then splitAux rest [] else acc.reverse :: splitAux rest [])
      else splitAux rest (c :: acc) := rfl

/-- Appending one trailing whitespace character does not change the
token list, for any accumulator. -/
theorem splitAux_trailing (w : Char) (hw : isWS w = true) :
    ∀ (u acc : List Char), splitAux (u ++ [w]) acc = splitAux u acc := by
  intro u
  induction u with
  | nil => intro acc; cases acc <;> simp [splitAux, hw]
  | cons c cs ih =>
    intro acc
    rw [List.cons_append, splitAux_cons, splitAux_cons]
    by_cases hc : isWS c <;> cases acc <;> simp [hc, ih]

/-- Inserting one whitespace character directly before an existing
whitespace character does not change the token list. -/
theorem splitAux_insert_before_ws (w wq : Char) (hw : isWS w = true) (hwq : isWS wq = true)
    (v : List Char) :
    ∀ (u acc : List Char), splitAux (u ++ w :: wq :: v) acc = splitAux (u ++ wq :: v) acc := by
  intro u
  induction u with
  | nil => intro acc; cases acc <;> simp [splitAux, hw, hwq]
  | cons c cs ih =>
    intro acc
    rw [List.cons_append, List.cons_append, splitAux_cons, splitAux_cons]
    by_cases hc : isWS c <;> cases acc <;> simp [hc, ih]

/-- Inserting one whitespace character directly after an existing
whitespace character does not change the token list. -/
theorem splitAux_insert_after_ws (w wq : Char) (hw : isWS w = true) (hwq : isWS wq = true)
    (v : List Char) :
    ∀ (u acc : List Char), splitAux (u ++ wq :: w :: v) acc = splitAux (u ++ wq :: v) acc := by
  intro u
  induction u with
  | nil => intro acc; cases acc <;> simp [splitAux, hw, hwq]
  | cons c cs ih =>
    intro acc
    rw [List.cons_append, List.cons_append, splitAux_cons, splitAux_cons]
    by_cases hc : isWS c <;> cases acc <;> simp [hc, ih]

/-- Length of the token list produced by splitAux: the number of token
starts of the remaining input, plus one for the token pending in a non
empty accumulator. -/
theorem splitAux_length_tokens (s : List Char) : ∀ acc : List Char,
    (splitAux s acc).length = countTokAux acc.isEmpty s + (if acc.isEmpty then 0 else 1) := by
  induction s with
  | nil => intro acc; cases acc <;> simp [splitAux, countTokAux]
  | cons c cs ih =>
    intro acc
    rw [splitAux_cons]
    by_cases hc : isWS c <;> cases acc <;> simp [countTokAux, hc, ih]
    all_goals omega

/-- Python capitalize on the key lines. -/
theorem capitalize_lines : pyCapitalize "lines" = "Lines" := by decide

/-- Python capitalize on the key words. -/
theorem capitalize_words : pyCapitalize "words" = "Words" := by decide

/-- Python capitalize on the key chars. -/
theorem capitalize_chars : pyCapitalize "chars" = "Chars" := by decide

/-- Python capitalize on the key stats. -/
theorem capitalize_stats : pyCapitalize "stats" = "Stats" := by decide

/-- The fraction part rendered by fmt2Frac has exactly two characters,
both digits, for every input below one hundred. -/
theorem frac_two_digits : ∀ k : Nat, k < 100 →
    (fmt2Frac k).length = 2 ∧ (fmt2Frac k).toList.all Char.isDigit = true := by decide

/-- The text block the source renderer emits for one file equals the
block described by the specification, amended to the single leading
space of the stats sub header. -/
theorem text_block_eq_spec (fn : String) (m : FileMetrics) :
    ("Results for \x27" ++ fn ++ "\x27:") :: formatMetricsText m = specFileBlock fn m := by
  obtain ⟨l, w, ch, st⟩ := m
  cases l <;> cases w <;> cases ch <;> cases st <;>
    simp [formatMetricsText, specFileBlock, specScalarLine, specStatsBlock,
      capitalize_lines, capitalize_words, capitalize_chars, capitalize_stats]

/-- The csv row the source renderer emits for one file equals the row
described by the specification. -/
theorem csv_row_eq_spec (fn : String) (m : FileMetrics) : csvRow fn m = specCsvRow fn m := by
  obtain ⟨l, w, ch, st⟩ := m
  cases l <;> cases w <;> cases ch <;>
    simp [csvRow, specCsvRow, csvCell, String.intercalate, String.intercalate.go,
      String.append_assoc]

/-- C1: the lines metric of analyze_file equals the newline count of the
content plus one; for non empty content not ending in a newline this is
the number of lines, and for content ending in a newline it is the
number of lines plus one, the defined overcount. -/
theorem lines_metric_newline_count (content : List Char) :
    linesMetric content = content.count '\n' + 1 ∧
    (content ≠ [] → endsNL content = false → linesMetric content = specLineCount content) ∧
    (endsNL content = true → linesMetric content = specLineCount content + 1) := by
  refine ⟨rfl, ?_, ?_⟩
  · intro hne hno
    have h := specLinesAux_length content []
    cases content with
    | nil => exact absurd rfl hne
    | cons c rest =>
      simp [hno] at h
      simp [linesMetric, specLineCount, specLines, h]
  · intro hyes
    have h := specLinesAux_length content []
    cases content with
    | nil => simp [endsNL] at hyes
    | cons c rest =>
      simp [hyes] at h
      simp [linesMetric, specLineCount, specLines, h]

/-- C1 witness: the theorem applied to the two character content ab, not
newline terminated, and to the newline terminated two character content. -/
theorem lines_metric_newline_count_witness :
    (('a' :: 'b' :: []) ≠ [] ∧ endsNL ('a' :: 'b' :: []) = false ∧
      linesMetric ('a' :: 'b' :: []) = specLineCount ('a' :: 'b' :: [])) ∧
    (endsNL ('a' :: '\n' :: []) = true ∧
      linesMetric ('a' :: '\n' :: []) = specLineCount ('a' :: '\n' :: []) + 1) :=
  ⟨⟨by decide, by decide,
    (lines_metric_newline_count ('a' :: 'b' :: [])).2.1 (by decide) (by decide)⟩,
   ⟨by decide, (lines_metric_newline_count ('a' :: '\n' :: [])).2.2 (by decide)⟩⟩

/-- C2: for empty content the stats block is all zeroes, and the two
average divisors max(n, 1) equal one when the line or word count is zero
and are positive for every content, so no division by zero occurs. -/
theorem stats_empty_and_division_guarded :
    computeStats [] = ⟨0, 0, 0⟩ ∧
    (computeStats []).avg_line_length = 0 ∧
    (computeStats []).avg_words_length = 0 ∧
    (computeStats []).empty_lines = 0 ∧
    avgDenom 0 = 1 ∧
    (∀ content : List Char,
      0 < avgDenom (pySplitlines content).length ∧ 0 < avgDenom (pySplit content).length) := by
  have hempty : computeStats [] = ⟨0, 0, 0⟩ := by
    simp [computeStats, pySplitlines, splitlinesAux, pySplit, splitAux, avgDenom]
  refine ⟨hempty, by rw [hempty], by rw [hempty], by rw [hempty], rfl, ?_⟩
  intro c
  constructor <;> simp [avgDenom]

/-- C3: for a non empty list of valid modes, the metrics mapping holds
exactly the keys of the requested modes: each of lines, words and chars
is present exactly when its own mode or the mode all was requested,
stats is present exactly when the mode stats was requested, the mode all
forces lines, words and chars, and the mapping is never empty. -/
theorem metrics_keys_match_modes (modes : List String) (content : List Char)
    (hne : modes ≠ [])
    (hval : ∀ m ∈ modes, m = "lines" ∨ m = "words" ∨ m = "chars" ∨ m = "all" ∨ m = "stats") :
    ((analyzeContent modes content).lines.isSome ↔ ("lines" ∈ modes ∨ "all" ∈ modes)) ∧
    ((analyzeContent modes content).words.isSome ↔ ("words" ∈ modes ∨ "all" ∈ modes)) ∧
    ((analyzeContent modes content).chars.isSome ↔ ("chars" ∈ modes ∨ "all" ∈ modes)) ∧
    ((analyzeContent modes content).stats.isSome ↔ "stats" ∈ modes) ∧
    ("all" ∈ modes →
      (analyzeContent modes content).lines.isSome ∧
      (analyzeContent modes content).words.isSome ∧
      (analyzeContent modes content).chars.isSome) ∧
    analyzeContent modes content ≠ ⟨none, none, none, none⟩ := by
  refine ⟨?_, ?_, ?_, ?_, ?_, ?_⟩
  · by_cases h : "lines" ∈ modes ∨ "all" ∈ modes <;> simp [analyzeContent, h]
  · by_cases h : "words" ∈ modes ∨ "all" ∈ modes <;> simp [analyzeContent, h]
  · by_cases h : "chars" ∈ modes ∨ "all" ∈ modes <;> simp [analyzeContent, h]
  · by_cases h : "stats" ∈ modes <;> simp [analyzeContent, h]
  · intro hall
    refine ⟨?_, ?_, ?_⟩ <;> simp [analyzeContent, hall]
  · cases modes with
    | nil => exact absurd rfl hne
    | cons m ms =>
      intro heq
      have hm := hval m (List.mem_cons_self m ms)
      rcases hm with h | h | h | h | h <;> subst h
      · have hv : (analyzeContent ("lines" :: ms) content).lines = some (linesMetric content) := by
          simp [analyzeContent]
        rw [heq] at hv; exact Option.noConfusion hv
      · have hv : (analyzeContent ("words" :: ms) content).words = some (wordsMetric content) := by
          simp [analyzeContent]
        rw [heq] at hv; exact Option.noConfusion hv
      · have hv : (analyzeContent ("chars" :: ms) content).chars = some content.length := by
          simp [analyzeContent]
        rw [heq] at hv; exact Option.noConfusion hv
      · have hv : (analyzeContent ("all" :: ms) content).lines = some (linesMetric content) := by
          simp [analyzeContent]
        rw [heq] at hv; exact Option.noConfusion hv
      · have hv : (analyzeContent ("stats" :: ms) content).stats = some (computeStats content) := by
          simp [analyzeContent]
        rw [heq] at hv; exact Option.noConfusion hv

/-- C3 witness: the theorem applied to the mode list holding only all
and the two character content hi. -/
theorem metrics_keys_match_modes_witness :
    ((analyzeContent ["all"] ('h' :: 'i' :: [])).lines.isSome ↔
      ("lines" ∈ ["all"] ∨ "all" ∈ ["all"])) ∧
    ((analyzeContent ["all"] ('h' :: 'i' :: [])).words.isSome ↔
      ("words" ∈ ["all"] ∨ "all" ∈ ["all"])) ∧
    ((analyzeContent ["all"] ('h' :: 'i' :: [])).chars.isSome ↔
      ("chars" ∈ ["all"] ∨ "all" ∈ ["all"])) ∧
    ((analyzeContent ["all"] ('h' :: 'i' :: [])).stats.isSome ↔ "stats" ∈ ["all"]) ∧
    ("all" ∈ ["all"] →
      (analyzeContent ["all"] ('h' :: 'i' :: [])).lines.isSome ∧
      (analyzeContent ["all"] ('h' :: 'i' :: [])).words.isSome ∧
      (analyzeContent ["all"] ('h' :: 'i' :: [])).chars.isSome) ∧
    analyzeContent ["all"] ('h' :: 'i' :: []) ≠ ⟨none, none, none, none⟩ :=
  metrics_keys_match_modes ["all"] ('h' :: 'i' :: []) (by decide) (by decide)

/-- C4, amended: the text output equals the rendering described by the
specification once the stats sub header carries one leading space
instead of two; moreover every value rendered by the two decimal format
ends in a decimal point followed by exactly two digits. -/
theorem text_render_matches_spec :
    (∀ rs : ResultSet, textFormat rs = specTextRender rs) ∧
    (∀ q : ℚ, ∃ ip fp : String,
      fmt2 q = ip ++ "." ++ fp ∧ fp.length = 2 ∧ fp.toList.all Char.isDigit = true) := by
  constructor
  · intro rs
    have h : (rs.flatMap fun p => ("Results for \x27" ++ p.1 ++ "\x27:") :: formatMetricsText p.2)
        = rs.flatMap fun p => specFileBlock p.1 p.2 := by
      induction rs with
      | nil => rfl
      | cons p rest ih => simp [List.flatMap_cons, text_block_eq_spec, ih]
    unfold textFormat specTextRender
    rw [h]
  · intro q
    refine ⟨(if fmt2Int q < 0 then "-" else "") ++ toString ((fmt2Int q).natAbs / 100),
      fmt2Frac ((fmt2Int q).natAbs % 100), rfl, ?_⟩
    exact frac_two_digits _ (Nat.mod_lt _ (by norm_num))

/-- C4 counterexample: on a result set holding one file with a stats
block the source renderer emits the sub header with one leading space,
so its output differs from the two space rendering written in the claim. -/
theorem text_render_two_space_counterexample :
    textFormat [("a.txt", statsOnlyMetrics)] ≠ claimTextRender [("a.txt", statsOnlyMetrics)] ∧
    textFormat [("a.txt", statsOnlyMetrics)] =
      "Results for \x27a.txt\x27:\n Stats:\n    avg_line_length: 0.00\n" ++
        "    avg_words_length: 0.00\n    empty_lines: 0.00" := by
  constructor
  · decide
  · decide

/-- C5: the csv output is the fixed header row followed by one row per
file in iteration order, each metric column holding the value when
present and an empty field otherwise, the row independent of the stats
entry; the two example files render as the claim states. -/
theorem csv_render_matches_spec :
    (∀ rs : ResultSet, csvFormat rs =
      String.intercalate "\n"
        ("filename,lines,words,chars" :: rs.map fun p => specCsvRow p.1 p.2)) ∧
    (∀ (fn : String) (m : FileMetrics) (s t : Option Stats),
      csvRow fn { m with stats := s } = csvRow fn { m with stats := t }) ∧
    csvFormat [("text.txt", analyzeContent ["all"] ("aaaa bb\ncc dd\neeeeee".toList))] =
      "filename,lines,words,chars\ntext.txt,3,5,20" ∧
    csvFormat [("text.txt", analyzeContent ["stats"] ("aaaa".toList))] =
      "filename,lines,words,chars\ntext.txt,,," := by
  refine ⟨?_, ?_, ?_, ?_⟩
  · intro rs
    unfold csvFormat
    have h : (rs.map fun p => csvRow p.1 p.2) = rs.map fun p => specCsvRow p.1 p.2 :=
      List.map_congr_left fun p _ => csv_row_eq_spec p.1 p.2
    rw [h]
  · intro fn m s t
    rfl
  · decide
  · decide

/-- C6: the words metric counts the maximal whitespace delimited tokens,
and it is unchanged by adding leading whitespace, adding trailing
whitespace, or inserting a whitespace character directly before or
directly after an existing whitespace character. -/
theorem words_count_and_ws_invariant :
    (∀ content : List Char, wordsMetric content = countTokens content) ∧
    (∀ (v : List Char) (w : Char), isWS w = true →
      wordsMetric (w :: v) = wordsMetric v) ∧
    (∀ (u : List Char) (w : Char), isWS w = true →
      wordsMetric (u ++ [w]) = wordsMetric u) ∧
    (∀ (u v : List Char) (w wq : Char), isWS w = true → isWS wq = true →
      wordsMetric (u ++ w :: wq :: v) = wordsMetric (u ++ wq :: v)) ∧
    (∀ (u v : List Char) (w wq : Char), isWS w = true → isWS wq = true →
      wordsMetric (u ++ wq :: w :: v) = wordsMetric (u ++ wq :: v)) := by
  refine ⟨?_, ?_, ?_, ?_, ?_⟩
  · intro content
    have h := splitAux_length_tokens content []
    simpa [wordsMetric, pySplit, countTokens] using h
  · intro v w hw
    simp [wordsMetric, pySplit, splitAux, hw]
  · intro u w hw
    simp [wordsMetric, pySplit, splitAux_trailing w hw u]
  · intro u v w wq hw hwq
    simp [wordsMetric, pySplit, splitAux_insert_before_ws w wq hw hwq v u]
  · intro u v w wq hw hwq
    simp [wordsMetric, pySplit, splitAux_insert_after_ws w wq hw hwq v u]

/-- C6 witness: the theorem applied to small concrete contents, one
insertion of each allowed kind. -/
theorem words_count_and_ws_invariant_witness :
    wordsMetric (' ' :: 'a' :: 'b' :: []) = wordsMetric ('a' :: 'b' :: []) ∧
    wordsMetric (('a' :: 'b' :: []) ++ ['\n']) = wordsMetric ('a' :: 'b' :: []) ∧
    wordsMetric (('a' :: []) ++ '\t' :: ' ' :: ('b' :: [])) =
      wordsMetric (('a' :: []) ++ ' ' :: ('b' :: [])) ∧
    wordsMetric (('a' :: []) ++ ' ' :: '\t' :: ('b' :: [])) =
      wordsMetric (('a' :: []) ++ ' ' :: ('b' :: [])) :=
  ⟨words_count_and_ws_invariant.2.1 ('a' :: 'b' :: []) ' ' (by decide),
   words_count_and_ws_invariant.2.2.1 ('a' :: 'b' :: []) '\n' (by decide),
   words_count_and_ws_invariant.2.2.2.1 ('a' :: []) ('b' :: []) '\t' ' ' (by decide) (by decide),
   words_count_and_ws_invariant.2.2.2.2 ('a' :: []) ('b' :: []) '\t' ' ' (by decide) (by decide)⟩

/-- C8: analyze_file yields no result exactly when the path is not an
existing regular file or the read fails; whenever it yields no result a
diagnostic message is emitted; the collection loop of main keeps, in
order, exactly the files whose existence check and read succeed, and a
failing file leaves the collected results of the remaining files
unchanged. -/
theorem analyze_failure_skips_file (fs : FS) (modes : List String) (verbose : Bool) :
    (∀ f, (analyze_file fs f modes verbose).1 = none ↔
      (fs.isFile f = false ∨ readOk fs f = false)) ∧
    (∀ f, (analyze_file fs f modes verbose).1 = none →
      (analyze_file fs f modes verbose).2 ≠ []) ∧
    (∀ files : List String,
      ((collectResults fs files modes verbose).1.map Prod.fst) =
        files.filter (fun g => fs.isFile g && readOk fs g)) ∧
    (∀ f, (analyze_file fs f modes verbose).1 = none →
      ∀ files : List String,
        (collectResults fs (f :: files) modes verbose).1 =
          (collectResults fs files modes verbose).1) := by
  have hnone : ∀ f, (analyze_file fs f modes verbose).1 = none ↔
      (fs.isFile f = false ∨ readOk fs f = false) := by
    intro f
    cases hIs : fs.isFile f
    · simp [analyze_file, hIs]
    · cases hR : fs.readBytes f <;> simp [analyze_file, readOk, hIs, hR]
  refine ⟨hnone, ?_, ?_, ?_⟩
  · intro f hn
    cases hIs : fs.isFile f
    · simp [analyze_file, hIs]
    · cases hR : fs.readBytes f
      · simp [analyze_file, hIs, hR]
      · exfalso
        rw [hnone] at hn
        rcases hn with h | h
        · rw [hIs] at h; exact Bool.noConfusion h
        · rw [readOk, hR] at h; exact Bool.noConfusion h
  · intro files
    induction files with
    | nil => rfl
    | cons f rest ih =>
      cases hIs : fs.isFile f
      · simp [collectResults, analyze_file, readOk, hIs, ih]
      · cases hR : fs.readBytes f <;>
          simp [collectResults, analyze_file, readOk, hIs, hR, ih]
  · intro f hn files
    simp [collectResults, hn]

/-- C8 witness: on the demo file system the missing file produces a
diagnostic, the collected results keep exactly the readable files, and a
missing head file leaves the rest of the collection unchanged. -/
theorem analyze_failure_skips_file_witness :
    ((analyze_file fsDemo "missing.txt" ("lines" :: []) false).2 ≠ []) ∧
    ((collectResults fsDemo ("missing.txt" :: "bad.txt" :: "good.txt" :: [])
        ("lines" :: []) false).1.map Prod.fst =
      List.filter (fun g => fsDemo.isFile g && readOk fsDemo g)
        ("missing.txt" :: "bad.txt" :: "good.txt" :: [])) ∧
    ((collectResults fsDemo ("missing.txt" :: "good.txt" :: []) ("lines" :: []) false).1 =
      (collectResults fsDemo ("good.txt" :: []) ("lines" :: []) false).1) :=
  ⟨(analyze_failure_skips_file fsDemo ("lines" :: []) false).2.1 "missing.txt" (by decide),
   (analyze_failure_skips_file fsDemo ("lines" :: []) false).2.2.1
     ("missing.txt" :: "bad.txt" :: "good.txt" :: []),
   (analyze_failure_skips_file fsDemo ("lines" :: []) false).2.2.2 "missing.txt" (by decide)
     ("good.txt" :: [])⟩

/-- C9: with an empty resolved file list the driver emits only the no
matching files error and produces no output, while with a non empty
file list it always produces an output string. -/
theorem empty_fileset_early_exit (fs : FS) (modes : List String) (verbose : Bool) (fmt : String) :
    mainRun fs [] modes verbose fmt = (none, ["Error: No matching files found."]) ∧
    (∀ files : List String, files ≠ [] →
      ∃ out, (mainRun fs files modes verbose fmt).1 = some out) := by
  constructor
  · rfl
  · intro files hne
    cases files with
    | nil => exact absurd rfl hne
    | cons f rest =>
      refine ⟨formatted_output (collectResults fs (f :: rest) modes verbose).1 fmt, ?_⟩
      simp [mainRun]

/-- C9 witness: the theorem applied to the demo file system and a one
file list. -/
theorem empty_fileset_early_exit_witness :
    ∃ out, (mainRun fsDemo ("good.txt" :: []) ("lines" :: []) false "text").1 = some out :=
  (empty_fileset_early_exit fsDemo ("lines" :: []) false "text").2 ("good.txt" :: []) (by decide)

/-- C10: the csv renderer joins raw fields with commas without quoting
or escaping: a path holding a comma yields a data row with four commas,
one more than the three comma header, and a path holding a newline makes
the row span two physical lines, so the whole output has three physical
lines for one header and one file. -/
theorem csv_no_quoting_breaks_columns :
    (csvRow "a,b.txt" smallMetrics).toList.count ',' = 4 ∧
    ("filename,lines,words,chars" : String).toList.count ',' = 3 ∧
    csvFormat [("a,b.txt", smallMetrics)] =
      "filename,lines,words,chars\na,b.txt,1,2,3" ∧
    (csvRow "a\nb.txt" smallMetrics).toList.count '\n' = 1 ∧
    (csvFormat [("a\nb.txt", smallMetrics)]).toList.count '\n' = 2 := by
  refine ⟨by decide, by decide, by decide, by decide, by decide⟩

end FileAnalyzerPro
